import Mathlib

/-!
Shallow embedding of `src/esp_flash.cpp` (esputil): the `do_flash` flashing
routine, the chip-tag dispatch map built in `main`, and the stream semantics
of the programming loop.  Stateful C++ code is modelled by explicit state
passing; the observable behaviour of a session is the list of events
(serial open, transport exchanges, file open, header patch) it produces,
or an error when the code throws / fails an assertion.
-/

namespace EspFlash

/-- The fixed block size `BLOCK_SIZE = 4096` from `do_flash`. -/
def BLOCK_SIZE : Nat := 4096

/-- The template parameter `esplink::ImageHeaderChipID` of `do_flash`;
only `ESP32C3` is instantiated (`FLASH_FN_MAP`). -/
inductive ChipID where
  | ESP32C3
deriving DecidableEq

/-- Failure modes of a flash run: the `std::invalid_argument` thrown for an
unsupported image format, the hard error on an unknown chip identifier, the
`assert(magic_number == ESP_MAGIC_NUMBER)` failure, and the
`std::out_of_range` thrown by `FLASH_FN_MAP.at` on an unknown chip tag. -/
inductive FlashError where
  | unsupportedFormat
  | unknownChipId
  | assertionFailure
  | unknownChipTag
deriving DecidableEq

/-- Observable events of a flash session, in the order the code performs
them: opening the serial endpoint, each transport exchange issued through
`loader.transceive`, opening the source file, and the in-place header patch
(`set_binary_header`, not a transport exchange but recorded for ordering). -/
inductive Event where
  | serialOpen (port : List Char) (baud : Nat)
  | sync
  | readReg (addr : Nat)
  | spiAttach
  | spiSetParams
  | flashReadSlow (offset len : Nat)
  | fileOpen (path : List Char)
  | flashBegin (size blockCount blockSize offset : Nat)
  | headerPatch (seq : Nat)
  | flashData (byteRead seq : Nat) (payload : List Nat)
  | flashEnd
deriving DecidableEq

/-- `std::filesystem::path::filename`: the component after the last
directory separator. -/
def filenameOf (p : List Char) : List Char :=
  ((p.reverse.takeWhile (fun c => c ≠ '/'))).reverse

/-- `std::filesystem::path::extension`: empty for `.` and `..`, empty when
the filename holds no dot past its first character (dotfiles have no
extension), otherwise the suffix starting at the last dot, dot included. -/
def extensionOf (p : List Char) : List Char :=
  let f := filenameOf p
  if f = ['.'] ∨ f = ['.', '.'] then []
  else if '.' ∈ f.drop 1 then
    '.' :: (f.reverse.takeWhile (fun c => c ≠ '.')).reverse
  else []

/-- Modelled from the spec: the ESP image magic constant
`esplink::ESP_MAGIC_NUMBER` is declared in `esp_flash/chip.hpp`, which is
not part of `src/`; the properties proved below do not depend on its
concrete value. -/
def ESP_MAGIC_NUMBER : Nat := 0xE9

/-- Modelled from the spec: the numeric identifier the registry maps to the
sole supported chip profile; `esplink::get_chip_info` and its table live in
`esp_flash/chip.hpp`, which is not part of `src/`. -/
def CHIP_DETECT_MAGIC_ESP32C3 : Nat := 0x6921506f

/-- Modelled from the spec: `esplink::get_chip_info` (declared in
`esp_flash/chip.hpp`, not part of `src/`) resolves a numeric identifier
read back from the device's identification register to a chip id and a
display name; an unknown numeric identifier is a hard error, so the
lookup is a map with the sole supported profile. -/
def get_chip_info (v : Nat) : Option (Nat × List Char) :=
  if v = CHIP_DETECT_MAGIC_ESP32C3 then some (v, ("ESP32-C3").toList) else none

/-- Modelled from the spec: `esplink::set_binary_header` (declared in
`esp_flash/chip.hpp`, not part of `src/`) rewrites the SPI mode, SPI speed
code and flash size code header fields of the given chunk in place,
mirroring the byte layout read back during the probe step (mode at byte 2,
speed in the high nibble and size code in the low nibble of byte 3),
without resizing the chunk. -/
def set_binary_header (buff : List Nat) (mode speed size : Nat) : List Nat :=
  (buff.set 2 mode).set 3 (speed * 16 + size)

/-- `static_cast<std::uint32_t>` and the wrap-around of `std::uint32_t`
arithmetic: reduction modulo 2^32. -/
def u32 (n : Nat) : Nat := n % 4294967296

/-- The programming loop of `do_flash`:
`for (uint32_t sequence = 0; not file.eof(); ++sequence)` with
`file.read(buff.data(), BLOCK_SIZE)`.  State: the 4096-byte stack buffer
`buff` (a fresh read overwrites its first `gcount` bytes, the rest keeps
the previous content), the unread remainder `rest` of the file, the
stream's eof bit (`read` sets it exactly when fewer than `BLOCK_SIZE`
bytes were available), and the running `sequence`.  Each iteration patches
the buffer when `sequence == 0` and transmits one `FLASH_DATA` request
carrying `gcount`, the sequence number and the whole buffer; `sequence` is
a `std::uint32_t`, so the increment wraps modulo 2^32. -/
def program_loop (mode speed size : Nat) (buff rest : List Nat)
    (eofbit : Bool) (seq : Nat) : List Event :=
  if eofbit then []
  else
    let chunk := rest.take BLOCK_SIZE
    let byte_read := chunk.length
    let buff1 := chunk ++ buff.drop byte_read
    let buff2 := if seq = 0 then set_binary_header buff1 mode speed size else buff1
    (if seq = 0 then [Event.headerPatch seq] else []) ++
      Event.flashData byte_read seq buff2 ::
        program_loop mode speed size buff2 (rest.drop BLOCK_SIZE)
          (decide (rest.length < BLOCK_SIZE)) (u32 (seq + 1))
termination_by 2 * rest.length + (if eofbit then 0 else 1)
decreasing_by
  rename_i heof
  rw [List.length_drop, if_neg heof]
  simp only [decide_eq_true_eq]
  by_cases hlt : rest.length < BLOCK_SIZE
  · rw [if_pos hlt]
    omega
  · rw [if_neg hlt]
    simp only [BLOCK_SIZE] at hlt ⊢
    omega

/-- `do_flash<ChipID>` from `src/esp_flash.cpp`, as a function from the
run's inputs to its observable outcome.  Inputs that the real program
obtains from the environment are parameters: the contents of the source
file (`fileBytes`, for a file that opens successfully), the initial
contents of the uninitialised stack buffer (`initBuff`), the value read
from register `0x40001000` (`chipIdValue`) and the 16 bytes read back from
flash offset 0 during the probe step (`probe`, elements are `uint8`, dealt
with modulo 256).  `file_size` is the `static_cast<std::uint32_t>` of the
stream length and `packet_size` is computed in wrapping `uint32`
arithmetic, both modulo 2^32. -/
def do_flash (_chip : ChipID) (file port : List Char) (baud flash_offset : Nat)
    (chipIdValue : Nat) (probe : List Nat) (fileBytes initBuff : List Nat) :
    Except FlashError (List Event) :=
  if extensionOf file = ['e', 'l', 'f'] then
    Except.error FlashError.unsupportedFormat
  else
    match get_chip_info chipIdValue with
    | none => Except.error FlashError.unknownChipId
    | some _ =>
      if probe.getD 0 0 % 256 = ESP_MAGIC_NUMBER then
        let spi_mode := probe.getD 2 0 % 256
        let spi_speed := (probe.getD 3 0 % 256) / 16
        let flash_chip_size := probe.getD 3 0 % 16
        let file_size := u32 fileBytes.length
        let packet_size := u32 (file_size + BLOCK_SIZE - 1) / BLOCK_SIZE
        Except.ok
          ([Event.serialOpen port baud, Event.sync, Event.readReg 0x40001000,
            Event.spiAttach, Event.spiSetParams, Event.flashReadSlow 0 16,
            Event.fileOpen file,
            Event.flashBegin file_size packet_size BLOCK_SIZE flash_offset] ++
          program_loop spi_mode spi_speed flash_chip_size initBuff fileBytes
            false 0 ++ [Event.flashEnd])
      else Except.error FlashError.assertionFailure

/-- The global `FLASH_FN_MAP`: chip tags to flashing-routine instantiations;
it holds the single entry `"esp32c3" ↦ do_flash<ESP32C3>`. -/
def FLASH_FN_MAP : List (List Char × ChipID) :=
  [(("esp32c3").toList, ChipID.ESP32C3)]

/-- `FLASH_FN_MAP.at(tag)` as a lookup: `none` models the
`std::out_of_range` thrown on an unknown key. -/
def lookupFlashFn (tag : List Char) : Option ChipID :=
  (FLASH_FN_MAP.find? (fun p => decide (p.1 = tag))).map Prod.snd

/-- The `flash`-command branch of `main`: resolve the chip tag through
`FLASH_FN_MAP.at` (lines 146-147) and only then call the resolved flashing
routine. -/
def main_flash (tag file port : List Char) (baud flash_offset : Nat)
    (chipIdValue : Nat) (probe : List Nat) (fileBytes initBuff : List Nat) :
    Except FlashError (List Event) :=
  match lookupFlashFn tag with
  | none => Except.error FlashError.unknownChipTag
  | some chip =>
    do_flash chip file port baud flash_offset chipIdValue probe fileBytes initBuff

/-- `std::basic_istream::read` on a stream whose open failed: the sentry
fails, nothing is extracted and the eof bit is not touched, so the eof bit
after the read equals the eof bit before it. -/
def failed_stream_read (eofbit : Bool) : Bool := eofbit

/-- Eof bit of a failed-open stream after `n` iterations of the programming
loop's `file.read`. -/
def failed_stream_eof_after : Nat → Bool
  | 0 => false
  | n + 1 => failed_stream_read (failed_stream_eof_after n)

/-- Trace of a successful run; an error run has no recorded trace. -/
def okTrace (r : Except FlashError (List Event)) : List Event :=
  match r with
  | Except.ok tr => tr
  | Except.error _ => []

/-- The (byte count, sequence number) pairs of the transmitted `FLASH_DATA`
requests, in transmission order. -/
def dataPairs (tr : List Event) : List (Nat × Nat) :=
  tr.filterMap fun e =>
    match e with
    | Event.flashData b s _ => some (b, s)
    | _ => none

/-- The payloads of the transmitted `FLASH_DATA` requests, in order. -/
def payloads (tr : List Event) : List (List Nat) :=
  tr.filterMap fun e =>
    match e with
    | Event.flashData _ _ p => some p
    | _ => none

/-- The sequence numbers of the header-patch applications, in order. -/
def patchSeqs (tr : List Event) : List Nat :=
  tr.filterMap fun e =>
    match e with
    | Event.headerPatch s => some s
    | _ => none

/-- The (size, block count, block size, offset) tuples of the transmitted
`FLASH_BEGIN` requests, in order. -/
def beginParams (tr : List Event) : List (Nat × Nat × Nat × Nat) :=
  tr.filterMap fun e =>
    match e with
    | Event.flashBegin sz bc bs off => some (sz, bc, bs, off)
    | _ => none

/-- Sum of the byte counts declared in the transmitted `FLASH_DATA`
requests. -/
def sumBytes (tr : List Event) : Nat :=
  ((dataPairs tr).map Prod.fst).sum

/-- Sequence numbers declared in the transmitted `FLASH_DATA` requests. -/
def seqNums (tr : List Event) : List Nat :=
  (dataPairs tr).map Prod.snd

/-- Abstract byte-count/sequence bookkeeping of the programming loop,
recursing on the number of unread bytes. -/
def blockCounts (r k : Nat) : List (Nat × Nat) :=
  if r < BLOCK_SIZE then [(r, k)]
  else (BLOCK_SIZE, k) :: blockCounts (r - BLOCK_SIZE) (u32 (k + 1))
termination_by r
decreasing_by
  simp only [BLOCK_SIZE] at *
  omega

/-- The event trace of a successful `do_flash` run, spelled out. -/
def flashTrace (file port : List Char) (baud flash_offset : Nat)
    (probe fileBytes initBuff : List Nat) : List Event :=
  [Event.serialOpen port baud, Event.sync, Event.readReg 0x40001000,
   Event.spiAttach, Event.spiSetParams, Event.flashReadSlow 0 16,
   Event.fileOpen file,
   Event.flashBegin (u32 fileBytes.length)
     (u32 (u32 fileBytes.length + BLOCK_SIZE - 1) / BLOCK_SIZE) BLOCK_SIZE
     flash_offset] ++
  program_loop (probe.getD 2 0 % 256) ((probe.getD 3 0 % 256) / 16)
    (probe.getD 3 0 % 16) initBuff fileBytes false 0 ++ [Event.flashEnd]

theorem okTrace_ok (tr : List Event) : okTrace (Except.ok tr) = tr := rfl

theorem do_flash_ok (chip : ChipID) (file port : List Char)
    (baud flash_offset chipIdValue : Nat) (probe fileBytes initBuff : List Nat)
    (info : Nat × List Char)
    (hext : ¬ extensionOf file = ['e', 'l', 'f'])
    (hchip : get_chip_info chipIdValue = some info)
    (hmagic : probe.getD 0 0 % 256 = ESP_MAGIC_NUMBER) :
    do_flash chip file port baud flash_offset chipIdValue probe fileBytes initBuff =
      Except.ok (flashTrace file port baud flash_offset probe fileBytes initBuff) := by
  simp only [do_flash, flashTrace, if_neg hext, hchip, if_pos hmagic]

theorem blockCounts_map_fst_sum (r k : Nat) :
    ((blockCounts r k).map Prod.fst).sum = r := by
  induction r, k using blockCounts.induct with
  | case1 r k hlt =>
    rw [blockCounts.eq_def, if_pos hlt]
    simp
  | case2 r k hlt ih =>
    rw [blockCounts.eq_def, if_neg hlt]
    simp only [List.map_cons, List.sum_cons, ih]
    simp only [BLOCK_SIZE] at hlt ⊢
    omega

theorem blockCounts_map_snd (r k : Nat) :
    k < 4294967296 →
    (blockCounts r k).map Prod.snd =
      (List.range (r / BLOCK_SIZE + 1)).map (fun i => u32 (k + i)) := by
  induction r, k using blockCounts.induct with
  | case1 r k hlt =>
    intro hk
    rw [blockCounts.eq_def, if_pos hlt]
    have hr1 : List.range 1 = [0] := rfl
    simp [Nat.div_eq_of_lt hlt, u32, Nat.mod_eq_of_lt hk, hr1]
  | case2 r k hlt ih =>
    intro hk
    rw [blockCounts.eq_def, if_neg hlt]
    have hu : u32 (k + 1) < 4294967296 := Nat.mod_lt _ (by norm_num)
    have hdiv : r / BLOCK_SIZE = (r - BLOCK_SIZE) / BLOCK_SIZE + 1 :=
      Nat.div_eq_sub_div (by simp [BLOCK_SIZE]) (Nat.le_of_not_lt hlt)
    have key : List.map (fun i => u32 (k + i))
        (List.range ((r - BLOCK_SIZE) / BLOCK_SIZE + 1 + 1)) =
        k :: List.map (fun i => u32 (u32 (k + 1) + i))
          (List.range ((r - BLOCK_SIZE) / BLOCK_SIZE + 1)) := by
      rw [List.range_succ_eq_map, List.map_cons, List.map_map]
      congr 1
      · show u32 (k + 0) = k
        simp [u32, Nat.mod_eq_of_lt hk]
      · apply List.map_congr_left
        intro i _
        show u32 (k + Nat.succ i) = u32 (u32 (k + 1) + i)
        simp only [u32, Nat.mod_add_mod]
        congr 1
        omega
    rw [List.map_cons, ih hu, hdiv, key]

theorem range_map_u32 (n : Nat) (hn : n ≤ 4294967296) :
    (List.range n).map (fun i => u32 i) = List.range n := by
  induction n with
  | zero => rfl
  | succ n ih =>
    rw [List.range_succ, List.map_append, ih (by omega)]
    simp [u32, Nat.mod_eq_of_lt (by omega : n < 4294967296)]

theorem range_filter_eq_zero (n : Nat) :
    (List.range n).filter (fun x => decide (x = 0)) =
      if n = 0 then [] else [0] := by
  induction n with
  | zero => rfl
  | succ n ih =>
    rw [List.range_succ, List.filter_append, ih]
    by_cases hn : n = 0
    · subst hn
      rfl
    · simp [hn]

theorem range_u32_faithful (n : Nat) :
    (List.range n).map (fun i => u32 i) = List.range n → n ≤ 4294967296 := by
  intro h
  by_contra hgt
  push_neg at hgt
  have h1 := congrArg (fun l => l[(4294967296 : Nat)]?) h
  simp only [List.getElem?_map] at h1
  rw [List.getElem?_range hgt] at h1
  simp [u32] at h1

theorem blockCounts_length (r k : Nat) :
    (blockCounts r k).length = r / BLOCK_SIZE + 1 := by
  induction r, k using blockCounts.induct with
  | case1 r k hlt =>
    rw [blockCounts.eq_def, if_pos hlt]
    simp only [List.length_singleton]
    simp only [BLOCK_SIZE] at hlt ⊢
    omega
  | case2 r k hlt ih =>
    rw [blockCounts.eq_def, if_neg hlt]
    simp only [List.length_cons, ih]
    simp only [BLOCK_SIZE] at hlt ⊢
    omega

theorem program_loop_eof (mode speed size : Nat) (buff rest : List Nat)
    (seq : Nat) :
    program_loop mode speed size buff rest true seq = [] := by
  rw [program_loop.eq_def]
  simp

theorem dataPairs_nil : dataPairs [] = [] := rfl

theorem dataPairs_append (l1 l2 : List Event) :
    dataPairs (l1 ++ l2) = dataPairs l1 ++ dataPairs l2 :=
  List.filterMap_append l1 l2 _

theorem dataPairs_cons (e : Event) (l : List Event) :
    dataPairs (e :: l) =
      (match e with
       | Event.flashData b s _ => [(b, s)]
       | _ => []) ++ dataPairs l := by
  cases e <;> rfl

theorem payloads_nil : payloads [] = [] := rfl

theorem payloads_append (l1 l2 : List Event) :
    payloads (l1 ++ l2) = payloads l1 ++ payloads l2 :=
  List.filterMap_append l1 l2 _

theorem payloads_cons (e : Event) (l : List Event) :
    payloads (e :: l) =
      (match e with
       | Event.flashData _ _ p => [p]
       | _ => []) ++ payloads l := by
  cases e <;> rfl

theorem patchSeqs_nil : patchSeqs [] = [] := rfl

theorem patchSeqs_append (l1 l2 : List Event) :
    patchSeqs (l1 ++ l2) = patchSeqs l1 ++ patchSeqs l2 :=
  List.filterMap_append l1 l2 _

theorem patchSeqs_cons (e : Event) (l : List Event) :
    patchSeqs (e :: l) =
      (match e with
       | Event.headerPatch s => [s]
       | _ => []) ++ patchSeqs l := by
  cases e <;> rfl

theorem beginParams_nil : beginParams [] = [] := rfl

theorem beginParams_append (l1 l2 : List Event) :
    beginParams (l1 ++ l2) = beginParams l1 ++ beginParams l2 :=
  List.filterMap_append l1 l2 _

theorem beginParams_cons (e : Event) (l : List Event) :
    beginParams (e :: l) =
      (match e with
       | Event.flashBegin sz bc bs off => [(sz, bc, bs, off)]
       | _ => []) ++ beginParams l := by
  cases e <;> rfl

theorem dataPairs_program_loop (mode speed size : Nat) :
    ∀ (n : Nat) (buff rest : List Nat) (seq : Nat), rest.length = n →
      dataPairs (program_loop mode speed size buff rest false seq) =
        blockCounts n seq := by
  intro n
  induction n using Nat.strong_induction_on with
  | _ n ihn =>
    intro buff rest seq hn
    subst hn
    rw [program_loop.eq_def, blockCounts.eq_def]
    by_cases hlt : rest.length < BLOCK_SIZE
    · by_cases hseq : seq = 0 <;>
        simp [hseq, hlt, program_loop_eof, dataPairs_cons, dataPairs_append,
          dataPairs_nil, List.length_take, Nat.min_eq_right (Nat.le_of_lt hlt)]
    · have hdec : rest.length - BLOCK_SIZE < rest.length := by
        simp only [BLOCK_SIZE] at hlt ⊢
        omega
      have hrec := fun (b : List Nat) (q : Nat) =>
        ihn (rest.length - BLOCK_SIZE) hdec b (rest.drop BLOCK_SIZE) q
          (by simp)
      by_cases hseq : seq = 0 <;>
        simp [hseq, hlt, dataPairs_cons, dataPairs_append, dataPairs_nil, hrec,
          List.length_take, Nat.min_eq_left (Nat.le_of_not_lt hlt)]

theorem patchSeqs_program_loop (mode speed size : Nat) :
    ∀ (n : Nat) (buff rest : List Nat) (seq : Nat), rest.length = n →
      patchSeqs (program_loop mode speed size buff rest false seq) =
        ((blockCounts n seq).map Prod.snd).filter (fun x => decide (x = 0)) := by
  intro n
  induction n using Nat.strong_induction_on with
  | _ n ihn =>
    intro buff rest seq hn
    subst hn
    rw [program_loop.eq_def, blockCounts.eq_def]
    by_cases hlt : rest.length < BLOCK_SIZE
    · by_cases hseq : seq = 0 <;>
        simp [hseq, hlt, program_loop_eof, patchSeqs_cons, patchSeqs_append,
          patchSeqs_nil, List.filter_cons]
    · have hdec : rest.length - BLOCK_SIZE < rest.length := by
        simp only [BLOCK_SIZE] at hlt ⊢
        omega
      have hrec := fun (b : List Nat) (q : Nat) =>
        ihn (rest.length - BLOCK_SIZE) hdec b (rest.drop BLOCK_SIZE) q
          (by simp)
      by_cases hseq : seq = 0 <;>
        simp [hseq, hlt, patchSeqs_cons, patchSeqs_append, patchSeqs_nil, hrec,
          List.filter_cons]

theorem beginParams_program_loop (mode speed size : Nat) :
    ∀ (n : Nat) (buff rest : List Nat) (seq : Nat), rest.length = n →
      beginParams (program_loop mode speed size buff rest false seq) = [] := by
  intro n
  induction n using Nat.strong_induction_on with
  | _ n ihn =>
    intro buff rest seq hn
    subst hn
    rw [program_loop.eq_def]
    by_cases hlt : rest.length < BLOCK_SIZE
    · by_cases hseq : seq = 0 <;>
        simp [hseq, hlt, program_loop_eof, beginParams_cons, beginParams_append,
          beginParams_nil]
    · have hdec : rest.length - BLOCK_SIZE < rest.length := by
        simp only [BLOCK_SIZE] at hlt ⊢
        omega
      have hrec := fun (b : List Nat) (q : Nat) =>
        ihn (rest.length - BLOCK_SIZE) hdec b (rest.drop BLOCK_SIZE) q
          (by simp)
      by_cases hseq : seq = 0 <;>
        simp [hseq, hlt, beginParams_cons, beginParams_append, beginParams_nil,
          hrec]

theorem payloads_program_loop_head (mode speed size : Nat)
    (buff rest : List Nat) :
    (payloads (program_loop mode speed size buff rest false 0)).headD [] =
      set_binary_header
        (rest.take BLOCK_SIZE ++ buff.drop (rest.take BLOCK_SIZE).length)
        mode speed size := by
  rw [program_loop.eq_def]
  simp [payloads_cons, payloads_append, payloads_nil]

theorem failed_stream_eof_never (n : Nat) :
    failed_stream_eof_after n = false := by
  induction n with
  | zero => rfl
  | succ n ih => simp [failed_stream_eof_after, failed_stream_read, ih]

/-- Claim C1 (amended): for a successful `do_flash` run on an image of `S`
bytes with `S + 4095 < 2^32` — so the `uint32` size cast and block-count
arithmetic of the code do not wrap — the begin-flash request carries block
count `⌈S / 4096⌉` (together with total size `S`, block size 4096 and the
requested offset), and the byte counts declared in the transmitted data
requests sum to exactly `S`. -/
theorem C1_begin_count_and_byte_sum (chip : ChipID) (file port : List Char)
    (baud flash_offset chipIdValue : Nat) (probe fileBytes initBuff : List Nat)
    (info : Nat × List Char)
    (hS : fileBytes.length + BLOCK_SIZE - 1 < 4294967296)
    (hext : ¬ extensionOf file = ['e', 'l', 'f'])
    (hchip : get_chip_info chipIdValue = some info)
    (hmagic : probe.getD 0 0 % 256 = ESP_MAGIC_NUMBER) :
    beginParams (okTrace (do_flash chip file port baud flash_offset chipIdValue
        probe fileBytes initBuff)) =
      [(fileBytes.length, (fileBytes.length + BLOCK_SIZE - 1) / BLOCK_SIZE,
        BLOCK_SIZE, flash_offset)] ∧
    sumBytes (okTrace (do_flash chip file port baud flash_offset chipIdValue
        probe fileBytes initBuff)) = fileBytes.length := by
  rw [do_flash_ok chip file port baud flash_offset chipIdValue probe fileBytes
      initBuff info hext hchip hmagic, okTrace_ok]
  unfold flashTrace
  have hbp := beginParams_program_loop (probe.getD 2 0 % 256)
    ((probe.getD 3 0 % 256) / 16) (probe.getD 3 0 % 16) fileBytes.length
    initBuff fileBytes 0 rfl
  have hdp := dataPairs_program_loop (probe.getD 2 0 % 256)
    ((probe.getD 3 0 % 256) / 16) (probe.getD 3 0 % 16) fileBytes.length
    initBuff fileBytes 0 rfl
  simp only [List.getD_eq_getElem?_getD] at hbp hdp
  have hS0 : u32 fileBytes.length = fileBytes.length := by
    simp only [BLOCK_SIZE] at hS
    exact Nat.mod_eq_of_lt (by omega)
  have hS1 : u32 (fileBytes.length + BLOCK_SIZE - 1) =
      fileBytes.length + BLOCK_SIZE - 1 := Nat.mod_eq_of_lt hS
  constructor
  · simp [beginParams_cons, beginParams_append, beginParams_nil, hbp, hS0, hS1]
  · simp [sumBytes, dataPairs_cons, dataPairs_append, dataPairs_nil, hdp,
      blockCounts_map_fst_sum]

/-- Claim C4 (amended): in a successful `do_flash` run on an image yielding
at most `2^32` data requests — so the `uint32` sequence counter does not
wrap — the sequence numbers declared in the transmitted data requests are
exactly `0, 1, ..., N-1` for `N` the number of transmitted data requests:
contiguous, starting at 0, with no gaps or repetitions. -/
theorem C4_sequence_numbers_contiguous (chip : ChipID) (file port : List Char)
    (baud flash_offset chipIdValue : Nat) (probe fileBytes initBuff : List Nat)
    (info : Nat × List Char)
    (hN : fileBytes.length / BLOCK_SIZE + 1 ≤ 4294967296)
    (hext : ¬ extensionOf file = ['e', 'l', 'f'])
    (hchip : get_chip_info chipIdValue = some info)
    (hmagic : probe.getD 0 0 % 256 = ESP_MAGIC_NUMBER) :
    seqNums (okTrace (do_flash chip file port baud flash_offset chipIdValue
        probe fileBytes initBuff)) =
      List.range (dataPairs (okTrace (do_flash chip file port baud flash_offset
        chipIdValue probe fileBytes initBuff))).length := by
  rw [do_flash_ok chip file port baud flash_offset chipIdValue probe fileBytes
      initBuff info hext hchip hmagic, okTrace_ok]
  unfold flashTrace
  have hdp := dataPairs_program_loop (probe.getD 2 0 % 256)
    ((probe.getD 3 0 % 256) / 16) (probe.getD 3 0 % 16) fileBytes.length
    initBuff fileBytes 0 rfl
  simp only [List.getD_eq_getElem?_getD] at hdp
  have hsnd := blockCounts_map_snd fileBytes.length 0 (by norm_num)
  simp only [Nat.zero_add] at hsnd
  have hmap := range_map_u32 (fileBytes.length / BLOCK_SIZE + 1) hN
  simp [seqNums, dataPairs_cons, dataPairs_append, dataPairs_nil, hdp, hsnd,
    blockCounts_length, hmap]

/-- Claim C8 (amended): in a successful `do_flash` run on an image yielding
at most `2^32` data requests — so the `uint32` sequence counter does not
wrap back to 0 — the header patch is applied to the block with sequence
number 0 and to no other block (`patchSeqs = [0]`), it happens only after
the probe's flash read (the patch is the ninth event, the flash read the
sixth), and the patched first chunk still has the full buffer length, so
patching does not change the chunk's length. -/
theorem C8_patch_first_block_after_probe (chip : ChipID) (file port : List Char)
    (baud flash_offset chipIdValue : Nat) (probe fileBytes initBuff : List Nat)
    (info : Nat × List Char)
    (hN : fileBytes.length / BLOCK_SIZE + 1 ≤ 4294967296)
    (hbuff : initBuff.length = BLOCK_SIZE)
    (hext : ¬ extensionOf file = ['e', 'l', 'f'])
    (hchip : get_chip_info chipIdValue = some info)
    (hmagic : probe.getD 0 0 % 256 = ESP_MAGIC_NUMBER) :
    (okTrace (do_flash chip file port baud flash_offset chipIdValue probe
        fileBytes initBuff)).take 9 =
      [Event.serialOpen port baud, Event.sync, Event.readReg 0x40001000,
       Event.spiAttach, Event.spiSetParams, Event.flashReadSlow 0 16,
       Event.fileOpen file,
       Event.flashBegin (u32 fileBytes.length)
         (u32 (u32 fileBytes.length + BLOCK_SIZE - 1) / BLOCK_SIZE) BLOCK_SIZE
         flash_offset,
       Event.headerPatch 0] ∧
    patchSeqs (okTrace (do_flash chip file port baud flash_offset chipIdValue
        probe fileBytes initBuff)) = [0] ∧
    ((payloads (okTrace (do_flash chip file port baud flash_offset chipIdValue
        probe fileBytes initBuff))).headD []).length = BLOCK_SIZE := by
  rw [do_flash_ok chip file port baud flash_offset chipIdValue probe fileBytes
      initBuff info hext hchip hmagic, okTrace_ok]
  unfold flashTrace
  have hps := patchSeqs_program_loop (probe.getD 2 0 % 256)
    ((probe.getD 3 0 % 256) / 16) (probe.getD 3 0 % 16) fileBytes.length
    initBuff fileBytes 0 rfl
  have hph := payloads_program_loop_head (probe.getD 2 0 % 256)
    ((probe.getD 3 0 % 256) / 16) (probe.getD 3 0 % 16) initBuff fileBytes
  simp only [List.getD_eq_getElem?_getD] at hps hph ⊢
  have hsnd := blockCounts_map_snd fileBytes.length 0 (by norm_num)
  simp only [Nat.zero_add] at hsnd
  have hmap := range_map_u32 (fileBytes.length / BLOCK_SIZE + 1) hN
  have hfil := range_filter_eq_zero (fileBytes.length / BLOCK_SIZE + 1)
  refine ⟨?_, ?_, ?_⟩
  · rw [program_loop.eq_def]
    simp
  · simp [patchSeqs_cons, patchSeqs_append, patchSeqs_nil, hps, hsnd, hmap,
      hfil]
  · simp only [payloads_cons, payloads_append, payloads_nil]
    simp only [List.nil_append, List.append_nil]
    rw [hph]
    simp only [set_binary_header, List.length_set, List.length_append,
      List.length_take, List.length_drop, hbuff]
    simp only [BLOCK_SIZE]
    omega

/-- Claim C9: the geometry values derived from the probe read-back
(`spi_mode` from byte 2, `spi_speed` from the high nibble of byte 3, flash
size code from the low nibble of byte 3) are passed verbatim into the
header patch, so in the patched first block's payload byte 2 equals probe
byte 2 and byte 3 (speed nibble recombined with size nibble) equals probe
byte 3. -/
theorem C9_probe_geometry_verbatim (chip : ChipID) (file port : List Char)
    (baud flash_offset chipIdValue : Nat) (probe fileBytes initBuff : List Nat)
    (info : Nat × List Char)
    (hd2 : probe.getD 2 0 < 256) (hd3 : probe.getD 3 0 < 256)
    (hlen : 4 ≤ fileBytes.length)
    (hext : ¬ extensionOf file = ['e', 'l', 'f'])
    (hchip : get_chip_info chipIdValue = some info)
    (hmagic : probe.getD 0 0 % 256 = ESP_MAGIC_NUMBER) :
    ((payloads (okTrace (do_flash chip file port baud flash_offset chipIdValue
        probe fileBytes initBuff))).headD [])[2]? = some (probe.getD 2 0) ∧
    ((payloads (okTrace (do_flash chip file port baud flash_offset chipIdValue
        probe fileBytes initBuff))).headD [])[3]? = some (probe.getD 3 0) := by
  rw [do_flash_ok chip file port baud flash_offset chipIdValue probe fileBytes
      initBuff info hext hchip hmagic, okTrace_ok]
  unfold flashTrace
  have hph := payloads_program_loop_head (probe.getD 2 0 % 256)
    ((probe.getD 3 0 % 256) / 16) (probe.getD 3 0 % 16) initBuff fileBytes
  simp only [List.getD_eq_getElem?_getD] at hph hd2 hd3 ⊢
  have hlen1 : 4 ≤ (fileBytes.take BLOCK_SIZE ++
      initBuff.drop (fileBytes.take BLOCK_SIZE).length).length := by
    simp only [List.length_append, List.length_take, List.length_drop]
    simp only [BLOCK_SIZE]
    omega
  simp only [payloads_cons, payloads_append, payloads_nil]
  simp only [List.nil_append, List.append_nil]
  rw [hph]
  simp only [set_binary_header]
  constructor
  · rw [List.getElem?_set_ne (by omega),
      List.getElem?_set_self (by omega)]
    congr 1
    omega
  · rw [List.getElem?_set_self (by simp only [List.length_set]; omega)]
    congr 1
    omega

/-- Claim C10: the probe-step assertion
`assert(magic_number == ESP_MAGIC_NUMBER)` on the first byte read back from
flash offset 0 fails exactly when that byte differs from the magic number;
under the precondition that the target returns a valid image header (first
byte equal to the magic number) the assertion-failure branch is
unreachable. -/
theorem C10_magic_assert_iff (chip : ChipID) (file port : List Char)
    (baud flash_offset chipIdValue : Nat) (probe fileBytes initBuff : List Nat)
    (info : Nat × List Char)
    (hext : ¬ extensionOf file = ['e', 'l', 'f'])
    (hchip : get_chip_info chipIdValue = some info) :
    (do_flash chip file port baud flash_offset chipIdValue probe fileBytes
        initBuff = Except.error FlashError.assertionFailure) ↔
      ¬ probe.getD 0 0 % 256 = ESP_MAGIC_NUMBER := by
  by_cases hm : probe.getD 0 0 % 256 = ESP_MAGIC_NUMBER <;>
    simp [do_flash, hext, hchip, hm]

/-- Claim C7: an unknown chip tag makes the flash dispatch of `main` fail
at `FLASH_FN_MAP.at` with an out-of-range error before any device I/O: the
run yields the unknown-tag error, its trace is empty (zero transport
exchanges), and the flashing routine is never entered. -/
theorem C7_unknown_chip_tag_zero_exchanges (tag file port : List Char)
    (baud flash_offset chipIdValue : Nat) (probe fileBytes initBuff : List Nat)
    (h : lookupFlashFn tag = none) :
    main_flash tag file port baud flash_offset chipIdValue probe fileBytes
        initBuff = Except.error FlashError.unknownChipTag ∧
    okTrace (main_flash tag file port baud flash_offset chipIdValue probe
        fileBytes initBuff) = [] := by
  unfold main_flash
  rw [h]
  exact ⟨rfl, rfl⟩

/-- Claim C5 is refuted by the code: `do_flash` compares
`path::extension()` — which is always empty or begins with a dot — against
the dotless string `"elf"`, so the unsupported-format check never fires;
flashing `firmware.elf` proceeds to serial I/O (the sync exchange appears
in its trace) instead of failing with the unsupported-format error. -/
theorem C5_elf_check_never_fires :
    extensionOf (("firmware.elf").toList) = ['.', 'e', 'l', 'f'] ∧
    ¬ extensionOf (("firmware.elf").toList) = ['e', 'l', 'f'] ∧
    Event.sync ∈ okTrace (do_flash ChipID.ESP32C3 ("firmware.elf").toList
      ("COM3").toList 115200 0 CHIP_DETECT_MAGIC_ESP32C3 [233, 0, 0, 35]
      [10, 20, 30, 40, 50] []) := by
  refine ⟨by decide, by decide, ?_⟩
  rw [do_flash_ok ChipID.ESP32C3 (("firmware.elf").toList) (("COM3").toList)
      115200 0 CHIP_DETECT_MAGIC_ESP32C3 [233, 0, 0, 35] [10, 20, 30, 40, 50]
      [] (0x6921506f, ("ESP32-C3").toList) (by decide) (by decide) (by decide),
    okTrace_ok]
  unfold flashTrace
  simp

/-- Claim C6 is refuted by the code: the source file is opened only after
the serial port is opened and five transport exchanges (sync, register
read, SPI attach, SPI set-params, probe flash read) have been issued — the
first seven events of every successful run are exactly these followed by
the file open, so no open-time failure can abort before device
interaction. -/
theorem C6_file_open_after_device_io (chip : ChipID) (file port : List Char)
    (baud flash_offset chipIdValue : Nat) (probe fileBytes initBuff : List Nat)
    (info : Nat × List Char)
    (hext : ¬ extensionOf file = ['e', 'l', 'f'])
    (hchip : get_chip_info chipIdValue = some info)
    (hmagic : probe.getD 0 0 % 256 = ESP_MAGIC_NUMBER) :
    (okTrace (do_flash chip file port baud flash_offset chipIdValue probe
        fileBytes initBuff)).take 7 =
      [Event.serialOpen port baud, Event.sync, Event.readReg 0x40001000,
       Event.spiAttach, Event.spiSetParams, Event.flashReadSlow 0 16,
       Event.fileOpen file] := by
  rw [do_flash_ok chip file port baud flash_offset chipIdValue probe fileBytes
      initBuff info hext hchip hmagic, okTrace_ok]
  unfold flashTrace
  simp

/-- Claim C2 is refuted by the code: for an image whose size is a positive
exact multiple of the block size (here exactly 4096 bytes) the begin-flash
request declares one block, but the loop transmits two data requests — the
full block and a spurious extra empty block with declared byte count 0 and
sequence number 1 — because the stream's eof bit is only set by the failed
read that follows the exact-fit one. -/
theorem C2_exact_multiple_spurious_block :
    beginParams (okTrace (do_flash ChipID.ESP32C3 ("app.bin").toList
        ("COM3").toList 115200 0 CHIP_DETECT_MAGIC_ESP32C3 [233, 0, 0, 35]
        (List.replicate 4096 7) [])) = [(4096, 1, 4096, 0)] ∧
    dataPairs (okTrace (do_flash ChipID.ESP32C3 ("app.bin").toList
        ("COM3").toList 115200 0 CHIP_DETECT_MAGIC_ESP32C3 [233, 0, 0, 35]
        (List.replicate 4096 7) [])) = [(4096, 0), (0, 1)] := by
  rw [do_flash_ok ChipID.ESP32C3 (("app.bin").toList) (("COM3").toList) 115200
      0 CHIP_DETECT_MAGIC_ESP32C3 [233, 0, 0, 35] (List.replicate 4096 7) []
      (0x6921506f, ("ESP32-C3").toList) (by decide) (by decide) (by decide),
    okTrace_ok]
  unfold flashTrace
  generalize hrep : List.replicate (4096 : Nat) (7 : Nat) = bs
  have hlen : bs.length = 4096 := by
    rw [← hrep, List.length_replicate]
  have hbp := beginParams_program_loop 0 2 3 4096 [] bs 0 hlen
  have hdp := dataPairs_program_loop 0 2 3 4096 [] bs 0 hlen
  have hbc : blockCounts 4096 0 = [(4096, 0), (0, 1)] := by
    rw [blockCounts.eq_def]
    norm_num [BLOCK_SIZE, u32]
    rw [blockCounts.eq_def]
    norm_num [BLOCK_SIZE]
  constructor
  · simp [beginParams_cons, beginParams_append, beginParams_nil, hbp, hlen,
      BLOCK_SIZE, u32]
  · simp [dataPairs_cons, dataPairs_append, dataPairs_nil, hdp, hbc]

/-- Claim C3's "the programming loop produces 0 data blocks" is false on
the code: for a source file of size 0 the loop still transmits one data
request, with declared byte count 0 and sequence number 0, because the eof
bit is only set by the first (failed) read, after the loop body has already
run once. -/
theorem C3_empty_file_counterexample :
    dataPairs (okTrace (do_flash ChipID.ESP32C3 ("app.bin").toList
        ("COM3").toList 115200 0 CHIP_DETECT_MAGIC_ESP32C3 [233, 0, 0, 35]
        [] [])) = [(0, 0)] ∧
    ¬ (dataPairs (okTrace (do_flash ChipID.ESP32C3 ("app.bin").toList
        ("COM3").toList 115200 0 CHIP_DETECT_MAGIC_ESP32C3 [233, 0, 0, 35]
        [] []))).length = 0 := by
  have h1 : dataPairs (okTrace (do_flash ChipID.ESP32C3 ("app.bin").toList
      ("COM3").toList 115200 0 CHIP_DETECT_MAGIC_ESP32C3 [233, 0, 0, 35]
      [] [])) = [(0, 0)] := by
    rw [do_flash_ok ChipID.ESP32C3 (("app.bin").toList) (("COM3").toList)
        115200 0 CHIP_DETECT_MAGIC_ESP32C3 [233, 0, 0, 35] [] []
        (0x6921506f, ("ESP32-C3").toList) (by decide) (by decide) (by decide),
      okTrace_ok]
    unfold flashTrace
    have hdp := dataPairs_program_loop 0 2 3 0 [] [] 0 rfl
    have hbc : blockCounts 0 0 = [(0, 0)] := by
      rw [blockCounts.eq_def]
      norm_num [BLOCK_SIZE]
    simp [dataPairs_cons, dataPairs_append, dataPairs_nil, hdp, hbc]
  refine ⟨h1, ?_⟩
  rw [h1]
  decide

/-- Claim C3 (amended): for a source file of size 0, the begin-flash
request is still issued with total size 0 and block count 0, and the
programming loop transmits exactly one data request, with declared byte
count 0 and sequence number 0, rather than none. -/
theorem C3_empty_file_begin_and_one_block (chip : ChipID)
    (file port : List Char) (baud flash_offset chipIdValue : Nat)
    (probe initBuff : List Nat) (info : Nat × List Char)
    (hext : ¬ extensionOf file = ['e', 'l', 'f'])
    (hchip : get_chip_info chipIdValue = some info)
    (hmagic : probe.getD 0 0 % 256 = ESP_MAGIC_NUMBER) :
    beginParams (okTrace (do_flash chip file port baud flash_offset chipIdValue
        probe [] initBuff)) = [(0, 0, BLOCK_SIZE, flash_offset)] ∧
    dataPairs (okTrace (do_flash chip file port baud flash_offset chipIdValue
        probe [] initBuff)) = [(0, 0)] := by
  rw [do_flash_ok chip file port baud flash_offset chipIdValue probe [] initBuff
      info hext hchip hmagic, okTrace_ok]
  unfold flashTrace
  have hbp := beginParams_program_loop (probe.getD 2 0 % 256)
    ((probe.getD 3 0 % 256) / 16) (probe.getD 3 0 % 16) 0 initBuff [] 0 rfl
  have hdp := dataPairs_program_loop (probe.getD 2 0 % 256)
    ((probe.getD 3 0 % 256) / 16) (probe.getD 3 0 % 16) 0 initBuff [] 0 rfl
  have hbc : blockCounts 0 0 = [(0, 0)] := by
    rw [blockCounts.eq_def]
    norm_num [BLOCK_SIZE]
  simp only [List.getD_eq_getElem?_getD] at hbp hdp
  constructor
  · simp [beginParams_cons, beginParams_append, beginParams_nil, hbp,
      BLOCK_SIZE, u32]
  · simp [dataPairs_cons, dataPairs_append, dataPairs_nil, hdp, hbc]

/-- Claim C1, as frozen, is false of the code: at an image of `2^32 - 1`
bytes the `uint32` block-count arithmetic of the code wraps —
`(file_size + 4095) mod 2^32 = 4094` — so the begin-flash request carries
block count `4094 / 4096 = 0` instead of `⌈(2^32 - 1) / 4096⌉ = 2^20`. -/
theorem C1_uint32_wrap_counterexample :
    beginParams (okTrace (do_flash ChipID.ESP32C3 ("app.bin").toList
        ("COM3").toList 115200 0 CHIP_DETECT_MAGIC_ESP32C3 [233, 0, 0, 35]
        (List.replicate 4294967295 0) [])) = [(4294967295, 0, BLOCK_SIZE, 0)] ∧
    ¬ ((4294967295 : Nat) + BLOCK_SIZE - 1) / BLOCK_SIZE = 0 := by
  constructor
  · rw [do_flash_ok ChipID.ESP32C3 (("app.bin").toList) (("COM3").toList)
        115200 0 CHIP_DETECT_MAGIC_ESP32C3 [233, 0, 0, 35]
        (List.replicate 4294967295 0) [] (0x6921506f, ("ESP32-C3").toList)
        (by decide) (by decide) (by decide), okTrace_ok]
    unfold flashTrace
    generalize hrep : List.replicate (4294967295 : Nat) (0 : Nat) = bs
    have hlen : bs.length = 4294967295 := by
      rw [← hrep, List.length_replicate]
    have hbp := beginParams_program_loop ([233, 0, 0, 35].getD 2 0 % 256)
      ([233, 0, 0, 35].getD 3 0 % 256 / 16) ([233, 0, 0, 35].getD 3 0 % 16)
      bs.length [] bs 0 rfl
    simp only [beginParams_cons, beginParams_append, beginParams_nil, hbp,
      hlen, List.nil_append, List.append_nil]
    norm_num [u32, BLOCK_SIZE]
  · simp [BLOCK_SIZE]

/-- Sequence numbers transmitted by a successful run, in closed form: the
block indices reduced modulo 2^32 by the `uint32` sequence counter. -/
theorem seqNums_do_flash (chip : ChipID) (file port : List Char)
    (baud flash_offset chipIdValue : Nat) (probe fileBytes initBuff : List Nat)
    (info : Nat × List Char)
    (hext : ¬ extensionOf file = ['e', 'l', 'f'])
    (hchip : get_chip_info chipIdValue = some info)
    (hmagic : probe.getD 0 0 % 256 = ESP_MAGIC_NUMBER) :
    seqNums (okTrace (do_flash chip file port baud flash_offset chipIdValue
        probe fileBytes initBuff)) =
      (List.range (fileBytes.length / BLOCK_SIZE + 1)).map (fun i => u32 i) := by
  rw [do_flash_ok chip file port baud flash_offset chipIdValue probe fileBytes
      initBuff info hext hchip hmagic, okTrace_ok]
  unfold flashTrace
  have hdp := dataPairs_program_loop (probe.getD 2 0 % 256)
    ((probe.getD 3 0 % 256) / 16) (probe.getD 3 0 % 16) fileBytes.length
    initBuff fileBytes 0 rfl
  simp only [List.getD_eq_getElem?_getD] at hdp
  have hsnd := blockCounts_map_snd fileBytes.length 0 (by norm_num)
  simp only [Nat.zero_add] at hsnd
  simp [seqNums, dataPairs_cons, dataPairs_append, dataPairs_nil, hdp, hsnd]

/-- Number of data requests transmitted by a successful run. -/
theorem dataPairsLen_do_flash (chip : ChipID) (file port : List Char)
    (baud flash_offset chipIdValue : Nat) (probe fileBytes initBuff : List Nat)
    (info : Nat × List Char)
    (hext : ¬ extensionOf file = ['e', 'l', 'f'])
    (hchip : get_chip_info chipIdValue = some info)
    (hmagic : probe.getD 0 0 % 256 = ESP_MAGIC_NUMBER) :
    (dataPairs (okTrace (do_flash chip file port baud flash_offset chipIdValue
        probe fileBytes initBuff))).length =
      fileBytes.length / BLOCK_SIZE + 1 := by
  rw [do_flash_ok chip file port baud flash_offset chipIdValue probe fileBytes
      initBuff info hext hchip hmagic, okTrace_ok]
  unfold flashTrace
  have hdp := dataPairs_program_loop (probe.getD 2 0 % 256)
    ((probe.getD 3 0 % 256) / 16) (probe.getD 3 0 % 16) fileBytes.length
    initBuff fileBytes 0 rfl
  simp only [List.getD_eq_getElem?_getD] at hdp
  simp [dataPairs_cons, dataPairs_append, dataPairs_nil, hdp,
    blockCounts_length]

/-- Header-patch applications of a successful run, in closed form: the
patch fires at every block whose wrapped sequence number is 0. -/
theorem patchSeqs_do_flash (chip : ChipID) (file port : List Char)
    (baud flash_offset chipIdValue : Nat) (probe fileBytes initBuff : List Nat)
    (info : Nat × List Char)
    (hext : ¬ extensionOf file = ['e', 'l', 'f'])
    (hchip : get_chip_info chipIdValue = some info)
    (hmagic : probe.getD 0 0 % 256 = ESP_MAGIC_NUMBER) :
    patchSeqs (okTrace (do_flash chip file port baud flash_offset chipIdValue
        probe fileBytes initBuff)) =
      ((List.range (fileBytes.length / BLOCK_SIZE + 1)).map
        (fun i => u32 i)).filter (fun x => decide (x = 0)) := by
  rw [do_flash_ok chip file port baud flash_offset chipIdValue probe fileBytes
      initBuff info hext hchip hmagic, okTrace_ok]
  unfold flashTrace
  have hps := patchSeqs_program_loop (probe.getD 2 0 % 256)
    ((probe.getD 3 0 % 256) / 16) (probe.getD 3 0 % 16) fileBytes.length
    initBuff fileBytes 0 rfl
  simp only [List.getD_eq_getElem?_getD] at hps
  have hsnd := blockCounts_map_snd fileBytes.length 0 (by norm_num)
  simp only [Nat.zero_add] at hsnd
  simp [patchSeqs_cons, patchSeqs_append, patchSeqs_nil, hps, hsnd]

/-- Claim C4, as frozen, is false of the code: at an image of
`(2^32 + 1) * 4096` bytes the `uint32` sequence counter wraps, so the
transmitted sequence numbers are `0, ..., 2^32 - 1, 0, 1` — the entry at
position `2^32` is 0, not `2^32` — and are not `0 .. N-1`. -/
theorem C4_uint32_wrap_counterexample :
    ¬ (seqNums (okTrace (do_flash ChipID.ESP32C3 ("app.bin").toList
        ("COM3").toList 115200 0 CHIP_DETECT_MAGIC_ESP32C3 [233, 0, 0, 35]
        (List.replicate ((4294967296 + 1) * 4096) 0) [])) =
      List.range (dataPairs (okTrace (do_flash ChipID.ESP32C3
        ("app.bin").toList ("COM3").toList 115200 0 CHIP_DETECT_MAGIC_ESP32C3
        [233, 0, 0, 35] (List.replicate ((4294967296 + 1) * 4096) 0)
        []))).length) := by
  intro hcontra
  have e1 := seqNums_do_flash ChipID.ESP32C3 (("app.bin").toList)
    (("COM3").toList) 115200 0 CHIP_DETECT_MAGIC_ESP32C3 [233, 0, 0, 35]
    (List.replicate ((4294967296 + 1) * 4096) 0) []
    (0x6921506f, ("ESP32-C3").toList) (by decide) (by decide) (by decide)
  have e2 := dataPairsLen_do_flash ChipID.ESP32C3 (("app.bin").toList)
    (("COM3").toList) 115200 0 CHIP_DETECT_MAGIC_ESP32C3 [233, 0, 0, 35]
    (List.replicate ((4294967296 + 1) * 4096) 0) []
    (0x6921506f, ("ESP32-C3").toList) (by decide) (by decide) (by decide)
  have e4 : (List.replicate (((4294967296 : Nat) + 1) * 4096) (0 : Nat)).length
      / BLOCK_SIZE + 1 = 4294967298 := by
    rw [List.length_replicate]
    norm_num [BLOCK_SIZE]
  have e3 : (List.range 4294967298).map (fun i => u32 i) =
      List.range 4294967298 :=
    ((e1.trans (congrArg
        (fun n => (List.range n).map (fun i => u32 i)) e4)).symm).trans
      (hcontra.trans (congrArg List.range (e2.trans e4)))
  exact absurd (range_u32_faithful 4294967298 e3) (by norm_num)

/-- Claim C8, as frozen, is false of the code: at an image of
`(2^32 + 1) * 4096` bytes the `uint32` sequence counter wraps back to 0 at
iteration `2^32`, the `sequence == 0` guard re-fires and the header patch
is applied to a second block: the patch-application list is `[0, 0]`, not
`[0]`. -/
theorem C8_uint32_wrap_counterexample :
    patchSeqs (okTrace (do_flash ChipID.ESP32C3 ("app.bin").toList
        ("COM3").toList 115200 0 CHIP_DETECT_MAGIC_ESP32C3 [233, 0, 0, 35]
        (List.replicate ((4294967296 + 1) * 4096) 0) [])) = [0, 0] ∧
    ¬ patchSeqs (okTrace (do_flash ChipID.ESP32C3 ("app.bin").toList
        ("COM3").toList 115200 0 CHIP_DETECT_MAGIC_ESP32C3 [233, 0, 0, 35]
        (List.replicate ((4294967296 + 1) * 4096) 0) [])) = [0] := by
  have e4 : (List.replicate (((4294967296 : Nat) + 1) * 4096) (0 : Nat)).length
      / BLOCK_SIZE + 1 = 4294967298 := by
    rw [List.length_replicate]
    norm_num [BLOCK_SIZE]
  have comp : ((List.range 4294967298).map (fun i => u32 i)).filter
      (fun x => decide (x = 0)) = [0, 0] := by
    have h2 : (4294967298 : Nat) = 4294967296 + 2 := by norm_num
    have hsplit : List.range (4294967298 : Nat) =
        List.range 4294967296 ++
          (List.range 2).map (fun x => 4294967296 + x) := by
      rw [h2, List.range_add]
    have hrng2 : List.range 2 = [0, 1] := by decide
    rw [hsplit, List.map_append, List.filter_append,
      range_map_u32 4294967296 (by norm_num), range_filter_eq_zero, hrng2]
    norm_num [u32, List.filter_cons]
  have h1 := (patchSeqs_do_flash ChipID.ESP32C3 (("app.bin").toList)
    (("COM3").toList) 115200 0 CHIP_DETECT_MAGIC_ESP32C3 [233, 0, 0, 35]
    (List.replicate ((4294967296 + 1) * 4096) 0) []
    (0x6921506f, ("ESP32-C3").toList) (by decide) (by decide)
    (by decide)).trans
    ((congrArg (fun n => ((List.range n).map (fun i => u32 i)).filter
      (fun x => decide (x = 0))) e4).trans comp)
  exact ⟨h1, fun hcontra => absurd (h1.symm.trans hcontra) (by decide)⟩

/-- Witness for C1 at a concrete 5-byte image. -/
theorem C1_begin_count_and_byte_sum_witness :
    beginParams (okTrace (do_flash ChipID.ESP32C3 ("app.bin").toList
        ("COM3").toList 115200 0 CHIP_DETECT_MAGIC_ESP32C3 [233, 0, 0, 35]
        [10, 20, 30, 40, 50] [])) = [(5, 1, 4096, 0)] ∧
    sumBytes (okTrace (do_flash ChipID.ESP32C3 ("app.bin").toList
        ("COM3").toList 115200 0 CHIP_DETECT_MAGIC_ESP32C3 [233, 0, 0, 35]
        [10, 20, 30, 40, 50] [])) = 5 := by
  have h := C1_begin_count_and_byte_sum ChipID.ESP32C3 (("app.bin").toList)
    (("COM3").toList) 115200 0 CHIP_DETECT_MAGIC_ESP32C3 [233, 0, 0, 35]
    [10, 20, 30, 40, 50] [] (0x6921506f, ("ESP32-C3").toList)
    (by decide) (by decide) (by decide) (by decide)
  simpa [BLOCK_SIZE] using h

/-- Witness for C4 at a concrete 5-byte image. -/
theorem C4_sequence_numbers_contiguous_witness :
    seqNums (okTrace (do_flash ChipID.ESP32C3 ("app.bin").toList
        ("COM3").toList 115200 0 CHIP_DETECT_MAGIC_ESP32C3 [233, 0, 0, 35]
        [10, 20, 30, 40, 50] [])) =
      List.range (dataPairs (okTrace (do_flash ChipID.ESP32C3
        ("app.bin").toList ("COM3").toList 115200 0 CHIP_DETECT_MAGIC_ESP32C3
        [233, 0, 0, 35] [10, 20, 30, 40, 50] []))).length :=
  C4_sequence_numbers_contiguous ChipID.ESP32C3 (("app.bin").toList)
    (("COM3").toList) 115200 0 CHIP_DETECT_MAGIC_ESP32C3 [233, 0, 0, 35]
    [10, 20, 30, 40, 50] [] (0x6921506f, ("ESP32-C3").toList)
    (by decide) (by decide) (by decide) (by decide)

/-- Witness for C8 at a concrete 5-byte image and a 4096-byte buffer. -/
theorem C8_patch_first_block_after_probe_witness :
    (okTrace (do_flash ChipID.ESP32C3 ("app.bin").toList ("COM3").toList
        115200 0 CHIP_DETECT_MAGIC_ESP32C3 [233, 0, 0, 35] [10, 20, 30, 40, 50]
        (List.replicate BLOCK_SIZE 0))).take 9 =
      [Event.serialOpen ("COM3").toList 115200, Event.sync,
       Event.readReg 0x40001000, Event.spiAttach, Event.spiSetParams,
       Event.flashReadSlow 0 16, Event.fileOpen ("app.bin").toList,
       Event.flashBegin (u32 ([10, 20, 30, 40, 50] : List Nat).length)
         (u32 (u32 ([10, 20, 30, 40, 50] : List Nat).length + BLOCK_SIZE - 1) /
           BLOCK_SIZE) BLOCK_SIZE 0,
       Event.headerPatch 0] ∧
    patchSeqs (okTrace (do_flash ChipID.ESP32C3 ("app.bin").toList
        ("COM3").toList 115200 0 CHIP_DETECT_MAGIC_ESP32C3 [233, 0, 0, 35]
        [10, 20, 30, 40, 50] (List.replicate BLOCK_SIZE 0))) = [0] ∧
    ((payloads (okTrace (do_flash ChipID.ESP32C3 ("app.bin").toList
        ("COM3").toList 115200 0 CHIP_DETECT_MAGIC_ESP32C3 [233, 0, 0, 35]
        [10, 20, 30, 40, 50] (List.replicate BLOCK_SIZE 0)))).headD
      []).length = BLOCK_SIZE :=
  C8_patch_first_block_after_probe ChipID.ESP32C3 (("app.bin").toList)
    (("COM3").toList) 115200 0 CHIP_DETECT_MAGIC_ESP32C3 [233, 0, 0, 35]
    [10, 20, 30, 40, 50] (List.replicate BLOCK_SIZE 0)
    (0x6921506f, ("ESP32-C3").toList) (by decide) (by simp) (by decide)
    (by decide) (by decide)

/-- Witness for C9 at a concrete probe response with mode 0, speed 2,
size code 3 (the spec's round-trip example). -/
theorem C9_probe_geometry_verbatim_witness :
    ((payloads (okTrace (do_flash ChipID.ESP32C3 ("app.bin").toList
        ("COM3").toList 115200 0 CHIP_DETECT_MAGIC_ESP32C3 [233, 0, 0, 35]
        [10, 20, 30, 40, 50] []))).headD [])[2]? = some 0 ∧
    ((payloads (okTrace (do_flash ChipID.ESP32C3 ("app.bin").toList
        ("COM3").toList 115200 0 CHIP_DETECT_MAGIC_ESP32C3 [233, 0, 0, 35]
        [10, 20, 30, 40, 50] []))).headD [])[3]? = some 35 := by
  have h := C9_probe_geometry_verbatim ChipID.ESP32C3 (("app.bin").toList)
    (("COM3").toList) 115200 0 CHIP_DETECT_MAGIC_ESP32C3 [233, 0, 0, 35]
    [10, 20, 30, 40, 50] [] (0x6921506f, ("ESP32-C3").toList)
    (by decide) (by decide) (by decide) (by decide) (by decide) (by decide)
  simpa using h

/-- Witness for C10: a probe whose first byte is 0 triggers the assertion
failure; a probe whose first byte is the magic number does not. -/
theorem C10_magic_assert_iff_witness :
    (do_flash ChipID.ESP32C3 ("app.bin").toList ("COM3").toList 115200 0
        CHIP_DETECT_MAGIC_ESP32C3 [0, 0, 0, 35] [] [] =
      Except.error FlashError.assertionFailure) ∧
    ¬ (do_flash ChipID.ESP32C3 ("app.bin").toList ("COM3").toList 115200 0
        CHIP_DETECT_MAGIC_ESP32C3 [233, 0, 0, 35] [] [] =
      Except.error FlashError.assertionFailure) := by
  constructor
  · exact (C10_magic_assert_iff ChipID.ESP32C3 (("app.bin").toList)
      (("COM3").toList) 115200 0 CHIP_DETECT_MAGIC_ESP32C3 [0, 0, 0, 35] [] []
      (0x6921506f, ("ESP32-C3").toList) (by decide) (by decide)).mpr
      (by decide)
  · intro hcontra
    exact
      (by decide :
        ¬ ¬ (([233, 0, 0, 35] : List Nat).getD 0 0 % 256 = ESP_MAGIC_NUMBER))
      ((C10_magic_assert_iff ChipID.ESP32C3 (("app.bin").toList)
        (("COM3").toList) 115200 0 CHIP_DETECT_MAGIC_ESP32C3 [233, 0, 0, 35]
        [] [] (0x6921506f, ("ESP32-C3").toList) (by decide) (by decide)).mp
        hcontra)

/-- Witness for C7 at the unknown tag `esp8266`. -/
theorem C7_unknown_chip_tag_zero_exchanges_witness :
    main_flash ("esp8266").toList ("app.bin").toList ("COM3").toList 115200 0
        CHIP_DETECT_MAGIC_ESP32C3 [233, 0, 0, 35] [10, 20, 30, 40, 50] [] =
      Except.error FlashError.unknownChipTag ∧
    okTrace (main_flash ("esp8266").toList ("app.bin").toList ("COM3").toList
        115200 0 CHIP_DETECT_MAGIC_ESP32C3 [233, 0, 0, 35] [10, 20, 30, 40, 50]
        []) = [] :=
  C7_unknown_chip_tag_zero_exchanges (("esp8266").toList) (("app.bin").toList)
    (("COM3").toList) 115200 0 CHIP_DETECT_MAGIC_ESP32C3 [233, 0, 0, 35]
    [10, 20, 30, 40, 50] [] (by decide)

/-- Witness for C6 at a concrete 5-byte image. -/
theorem C6_file_open_after_device_io_witness :
    (okTrace (do_flash ChipID.ESP32C3 ("app.bin").toList ("COM3").toList
        115200 0 CHIP_DETECT_MAGIC_ESP32C3 [233, 0, 0, 35] [10, 20, 30, 40, 50]
        [])).take 7 =
      [Event.serialOpen ("COM3").toList 115200, Event.sync,
       Event.readReg 0x40001000, Event.spiAttach, Event.spiSetParams,
       Event.flashReadSlow 0 16, Event.fileOpen ("app.bin").toList] :=
  C6_file_open_after_device_io ChipID.ESP32C3 (("app.bin").toList)
    (("COM3").toList) 115200 0 CHIP_DETECT_MAGIC_ESP32C3 [233, 0, 0, 35]
    [10, 20, 30, 40, 50] [] (0x6921506f, ("ESP32-C3").toList)
    (by decide) (by decide) (by decide)

/-- Witness for the amended C3 at a concrete empty image. -/
theorem C3_empty_file_begin_and_one_block_witness :
    beginParams (okTrace (do_flash ChipID.ESP32C3 ("app.bin").toList
        ("COM3").toList 115200 0 CHIP_DETECT_MAGIC_ESP32C3 [233, 0, 0, 35]
        [] [])) = [(0, 0, BLOCK_SIZE, 0)] ∧
    dataPairs (okTrace (do_flash ChipID.ESP32C3 ("app.bin").toList
        ("COM3").toList 115200 0 CHIP_DETECT_MAGIC_ESP32C3 [233, 0, 0, 35]
        [] [])) = [(0, 0)] :=
  C3_empty_file_begin_and_one_block ChipID.ESP32C3 (("app.bin").toList)
    (("COM3").toList) 115200 0 CHIP_DETECT_MAGIC_ESP32C3 [233, 0, 0, 35] []
    (0x6921506f, ("ESP32-C3").toList) (by decide) (by decide) (by decide)

end EspFlash
